import Mathlib

/-!
Verification of the core domain logic of the `simple-financial-instruments`
repository (the canonical domain-driven implementation under
`src/code/src`): currency and asset-type enumerations, the Asset and
Portfolio models, the Bank-of-China-Hong-Kong exchange-rate service, the
asset-management service (profit/loss analysis and next-month template
generation) and the application-layer use cases.

Python `Decimal` values are modelled as exact rationals (`ℚ`); the
operations the code performs on them (`+`, `-`, `*`, comparison, and
`round(x, 2)`) are exact at the precision the code uses.  Python
exceptions are modelled by the `PyErr` inductive and fallible code returns
`Except PyErr _`.
-/

namespace SFI

/-- `MoneyCode` enum (`domain/enums/money_code.py`): USD, HKD, CNY. -/
inductive MoneyCode
  | USD
  | HKD
  | CNY
deriving DecidableEq, Repr

/-- The `.value` of a `MoneyCode` member (the enum is keyed by these strings). -/
def MoneyCode.value : MoneyCode → String
  | .USD => "USD"
  | .HKD => "HKD"
  | .CNY => "CNY"

/-- `AssetType` enum (`domain/enums/asset_type.py`). -/
inductive AssetType
  | STOCK
  | FUND
  | CONSERVATIVE_WEALTH_MANAGEMENT
  | BANK_DEPOSIT
  | CASH_EQUIVALENT
  | PENSION_FUND
  | CREDIT_CARD
deriving DecidableEq, Repr

/-- The English machine code of an `AssetType` (`AssetType.en_name`). -/
def AssetType.en_name : AssetType → String
  | .STOCK => "stock"
  | .FUND => "fund"
  | .CONSERVATIVE_WEALTH_MANAGEMENT => "conservative_wealth_management"
  | .BANK_DEPOSIT => "bank_deposit"
  | .CASH_EQUIVALENT => "cash_equivalent"
  | .PENSION_FUND => "pension_fund"
  | .CREDIT_CARD => "credit_card"

/-- Python exceptions raised by the embedded code.  `exchangeUnsupportedPair`,
`exchangeRateNotFound` and `exchangeInvalidRate` are the three
`ExchangeRateError` instances raised by `BocHkExchangeRateService`
(distinguished by their message); `valueError` / `typeError` /
`attributeError` are the builtin exceptions; `repositoryError` is
`RepositoryError`; `otherError` stands for any further `Exception` a
collaborator may raise. -/
inductive PyErr
  | valueError (msg : String)
  | typeError (msg : String)
  | attributeError (msg : String)
  | exchangeUnsupportedPair (fr fin : MoneyCode)
  | exchangeRateNotFound (fr fin : MoneyCode)
  | exchangeInvalidRate (rate : ℚ) (fr fin : MoneyCode)
  | repositoryError (msg : String)
  | otherError (msg : String)
deriving DecidableEq, Repr

/-- A rendering of an exception as a string, standing for Python `str(e)`.
Only its presence matters to the use-case results. -/
def PyErr.message : PyErr → String
  | .valueError m => m
  | .typeError m => m
  | .attributeError m => m
  | .exchangeUnsupportedPair _ _ => "Unsupported currency pair"
  | .exchangeRateNotFound _ _ => "Exchange rate not found"
  | .exchangeInvalidRate _ _ _ => "Invalid exchange rate"
  | .repositoryError m => m
  | .otherError m => m

/-- Floor of a rational. -/
def ratFloor (x : ℚ) : ℤ :=
  ⌊x⌋

/-- Round a rational to the nearest integer, ties to the even integer.
This is the rounding Python's `round` applies to `Decimal` values
(`ROUND_HALF_EVEN`, the default `Decimal` context rounding). -/
def roundHalfEvenInt (x : ℚ) : ℤ :=
  let f := ratFloor x
  if x - (f : ℚ) < 1/2 then f
  else if 1/2 < x - (f : ℚ) then f + 1
  else if f % 2 = 0 then f else f + 1

/-- Python `round(x, 2)` on a `Decimal`: quantize to 2 decimal places with
`ROUND_HALF_EVEN`. -/
def pyRound2 (x : ℚ) : ℚ :=
  (roundHalfEvenInt (x * 100) : ℚ) / 100

/-! ## BocHkExchangeRateService
(`infrastructure/exchange_rates/boc_hk_exchange_rate_service.py`)

The service caches `self._exchange_rates`, a dict keyed by the string
`f"{from.value}->{to.value}"`.  Since `MoneyCode.value` is injective, the
key is equivalent to the ordered currency pair, and the dict is modelled
as an association list over ordered pairs (a dict has unique keys; lookup
is first match). -/

/-- The cached `_exchange_rates` dict: ordered currency pair ↦ rate. -/
abbrev RateTable : Type := List ((MoneyCode × MoneyCode) × ℚ)

/-- Dict lookup `self._exchange_rates[rate_key]` (with `in` test via `isSome`). -/
def rateLookup (table : RateTable) (fr fin : MoneyCode) : Option ℚ :=
  (List.find? (fun e => e.1.1 = fr ∧ e.1.2 = fin) table).map (·.2)

/-- `is_supported_currency_pair`: identical currencies are always supported;
otherwise the ordered pair must be a key of the rate dict. -/
def is_supported_currency_pair (table : RateTable) (fr fin : MoneyCode) : Bool :=
  if fr = fin then true
  else (rateLookup table fr fin).isSome

/-- `get_exchange_rate`: `Decimal("1.0")` for identical currencies; raises
`ExchangeRateError("Exchange rate not found", ...)` when the ordered pair is
not stored and `ExchangeRateError(f"Invalid exchange rate: {rate}", ...)`
when the stored rate is `<= 0`; otherwise returns the stored rate. -/
def get_exchange_rate (table : RateTable) (fr fin : MoneyCode) : Except PyErr ℚ :=
  if fr = fin then .ok 1
  else
    match rateLookup table fr fin with
    | none => .error (.exchangeRateNotFound fr fin)
    | some rate =>
      if rate ≤ 0 then .error (.exchangeInvalidRate rate fr fin)
      else .ok rate

/-- `convert`: identical currencies return the amount unchanged; an
unsupported ordered pair raises `ExchangeRateError("Unsupported currency
pair", ...)`; otherwise the result is `round(amount * rate, 2)` (any error
from `get_exchange_rate` propagates). -/
def convert (table : RateTable) (fr fin : MoneyCode) (amount : ℚ) : Except PyErr ℚ :=
  if fr = fin then .ok amount
  else if ¬ is_supported_currency_pair table fr fin then
    .error (.exchangeUnsupportedPair fr fin)
  else
    match get_exchange_rate table fr fin with
    | .error e => .error e
    | .ok rate => .ok (pyRound2 (amount * rate))

/-! ## Asset (`domain/models/asset.py`) -/

/-- The `Asset` dataclass: name, type, currency, current and previous
balance. -/
structure Asset where
  name : String
  asset_type : AssetType
  currency : MoneyCode
  current_balance : ℚ
  previous_balance : ℚ
deriving DecidableEq, Repr

/-- Python `not s.strip()`: true iff the string consists only of whitespace
(stripping removes leading/trailing whitespace, so the strip is empty iff
every character is whitespace). -/
def pyIsBlank (s : String) : Bool :=
  s.toList.all (fun c => c.isWhitespace)

/-- The validation `Asset.__post_init__` performs, in order: empty or
all-whitespace name, negative current balance, negative previous balance.
`none` means construction succeeds. -/
def assetInitError (name : String) (current_balance previous_balance : ℚ) :
    Option PyErr :=
  if name = "" ∨ pyIsBlank name then some (.valueError "Asset name cannot be empty")
  else if current_balance < 0 then some (.valueError "Current balance cannot be negative")
  else if previous_balance < 0 then some (.valueError "Previous balance cannot be negative")
  else none

/-- Calling the `Asset` constructor (which runs `__post_init__`). -/
def Asset.init (name : String) (asset_type : AssetType) (currency : MoneyCode)
    (current_balance previous_balance : ℚ) : Except PyErr Asset :=
  match assetInitError name current_balance previous_balance with
  | some e => .error e
  | none => .ok ⟨name, asset_type, currency, current_balance, previous_balance⟩

/-- An `Asset` value that the Python constructor accepts (every `Asset`
instance alive in the program satisfies this). -/
def Asset.Valid (a : Asset) : Prop :=
  assetInitError a.name a.current_balance a.previous_balance = none

instance (a : Asset) : Decidable a.Valid := by
  unfold Asset.Valid; infer_instance

/-- `Asset.calculate_profit_loss`: current minus previous balance. -/
def Asset.calculate_profit_loss (a : Asset) : ℚ :=
  a.current_balance - a.previous_balance

/-- `Asset.has_profit`. -/
def Asset.has_profit (a : Asset) : Bool :=
  decide (0 < a.calculate_profit_loss)

/-- `Asset.has_loss`. -/
def Asset.has_loss (a : Asset) : Bool :=
  decide (a.calculate_profit_loss < 0)

/-- `Asset.is_credit_card`. -/
def Asset.is_credit_card (a : Asset) : Bool :=
  decide (a.asset_type = AssetType.CREDIT_CARD)

/-- `Asset.prepare_for_next_month`: a credit card is rebuilt unchanged; any
other asset moves its current balance to the previous balance and zeroes
the current one.  Both branches call the `Asset` constructor, so its
validation runs. -/
def Asset.prepare_for_next_month (a : Asset) : Except PyErr Asset :=
  if a.is_credit_card then
    Asset.init a.name a.asset_type a.currency a.current_balance a.previous_balance
  else
    Asset.init a.name a.asset_type a.currency 0 a.current_balance

/-! ## Portfolio (`domain/models/portfolio.py`) -/

/-- The `ProfitLossInfo` dataclass: all five fields are required (none has a
default). -/
structure ProfitLossInfo where
  name : String
  money_code : MoneyCode
  last_month_balance : ℚ
  current_month_balance : ℚ
  profit_loss_amount_rmb : ℚ
deriving DecidableEq, Repr

/-- The `AssetTypeSummary` dataclass. -/
structure AssetTypeSummary where
  asset_type : AssetType
  total_profit_loss_rmb : ℚ
  profit_loss_details : List ProfitLossInfo
deriving DecidableEq, Repr

/-- The `Portfolio` class: its `_assets` list.  The duplicate-name check is
in `Portfolio.init` below; a `Portfolio` value stands for a constructed
instance. -/
structure Portfolio where
  assets : List Asset
deriving DecidableEq, Repr

/-- `Portfolio.__init__` / `_validate_assets`: `assets or []` (identity on a
list value), then fail iff `len(names) != len(set(names))`, i.e. iff the
deduplicated name list is shorter than the name list. -/
def Portfolio.init (assets : List Asset) : Except PyErr Portfolio :=
  let names := assets.map Asset.name
  if names.dedup.length ≠ names.length then
    .error (.valueError "Portfolio contains duplicate asset names")
  else
    .ok ⟨assets⟩

/-- `Portfolio.size`. -/
def Portfolio.size (p : Portfolio) : ℕ :=
  p.assets.length

/-- `Portfolio.is_empty`. -/
def Portfolio.is_empty (p : Portfolio) : Bool :=
  decide (p.assets.length = 0)

/-- `Portfolio.group_by_asset_type`: a Python dict built by appending each
asset to the list at its type's key; dict keys keep insertion order, so the
result is an association list ordered by first occurrence of each type,
each group keeping the assets' original order. -/
def groupByAssetType (assets : List Asset) : List (AssetType × List Asset) :=
  assets.foldl
    (fun grouped a =>
      if grouped.any (fun g => g.1 == a.asset_type) then
        grouped.map (fun g => if g.1 == a.asset_type then (g.1, g.2 ++ [a]) else g)
      else grouped ++ [(a.asset_type, [a])])
    []

/-- `Portfolio.group_by_asset_type` on a portfolio. -/
def Portfolio.group_by_asset_type (p : Portfolio) : List (AssetType × List Asset) :=
  groupByAssetType p.assets

/-- `Portfolio.prepare_next_month_portfolio`: `prepare_for_next_month` on
every asset (any exception propagates), then the `Portfolio` constructor
(which re-validates name uniqueness). -/
def Portfolio.prepare_next_month_portfolio (p : Portfolio) : Except PyErr Portfolio :=
  match p.assets.mapM Asset.prepare_for_next_month with
  | .error e => .error e
  | .ok next_month_assets => Portfolio.init next_month_assets

/-! ## Report model (`domain/models/report.py`) -/

/-- The `ProfitLossReport` dataclass; `generated_at` (a `datetime.now()`
stamp) is modelled as an abstract tick supplied by the caller. -/
structure ProfitLossReport where
  generated_at : ℕ
  asset_type_summaries : List AssetTypeSummary
  total_profit_loss_rmb : ℚ
deriving DecidableEq, Repr

/-- `ProfitLossReport.has_profit`: strictly positive total. -/
def ProfitLossReport.has_profit (r : ProfitLossReport) : Bool :=
  decide (0 < r.total_profit_loss_rmb)

/-- `ProfitLossReport.has_loss`: strictly negative total. -/
def ProfitLossReport.has_loss (r : ProfitLossReport) : Bool :=
  decide (r.total_profit_loss_rmb < 0)

/-! ## AssetManagementService (`domain/services/asset_management_service.py`)

The service holds a repository and an exchange-rate service.  Their
behaviour is a parameter of the embedding: the repository's
`load_portfolio` is an `Except` value and the exchange service's `convert`
method a function returning `Except` (`BocHkExchangeRateService` provides
`convert table` as one concrete such behaviour). -/

/-- The behaviour of an `ExchangeRateService.convert` method. -/
abbrev ExchangeBehavior : Type := MoneyCode → MoneyCode → ℚ → Except PyErr ℚ

/-- `_convert_to_rmb_if_needed`: an amount already in CNY is returned
unchanged without consulting the exchange service; otherwise
`convert(currency, CNY, amount)` is tried and ANY exception is caught
(after a logged warning), falling back to the unconverted amount. -/
def convert_to_rmb_if_needed (conv : ExchangeBehavior) (amount : ℚ)
    (currency : MoneyCode) : ℚ :=
  if currency = MoneyCode.CNY then amount
  else
    match conv currency MoneyCode.CNY amount with
    | .ok converted => converted
    | .error _ => amount

/-- The `TypeError` Python raises at the `ProfitLossInfo(...)` call inside
`_analyze_asset_type_profit_loss`: the call passes `name`, `money_code`,
`last_month_balance` and `profit_loss_amount_rmb` but omits the required
dataclass field `current_month_balance`, so the generated `__init__`
rejects it. -/
def profitLossInfoMissingFieldError : PyErr :=
  .typeError "ProfitLossInfo.__init__ missing 1 required positional argument: current_month_balance"

/-- The per-asset loop of `_analyze_asset_type_profit_loss`.  Each iteration
computes the asset's profit/loss, converts it via
`_convert_to_rmb_if_needed`, and then constructs a `ProfitLossInfo` — a
call that raises `TypeError` because `current_month_balance` is missing,
so the first iteration always aborts the loop.  (Had the construction
succeeded, the loop would have appended the detail and added the converted
amount to the running total.) -/
def analyzeAssetLoop (conv : ExchangeBehavior) (asset_type : AssetType) :
    List Asset → List ProfitLossInfo → ℚ → Except PyErr AssetTypeSummary
  | [], details, total => .ok ⟨asset_type, total, details⟩
  | a :: _, _, _ =>
    let profit_loss_amount := a.calculate_profit_loss
    let _profit_loss_rmb := convert_to_rmb_if_needed conv profit_loss_amount a.currency
    .error profitLossInfoMissingFieldError

/-- `_analyze_asset_type_profit_loss`: an empty asset list yields an empty
summary with total `0.00`; otherwise the per-asset loop runs (and raises,
see `analyzeAssetLoop`). -/
def analyze_asset_type_profit_loss (conv : ExchangeBehavior)
    (asset_type : AssetType) (assets : List Asset) : Except PyErr AssetTypeSummary :=
  if assets.isEmpty then
    .ok ⟨asset_type, 0, []⟩
  else
    analyzeAssetLoop conv asset_type assets [] 0

/-- The per-type loop of `analyze_profit_loss`: summaries are appended in
group order and the per-type totals accumulated. -/
def analyzeTypeLoop (conv : ExchangeBehavior) :
    List (AssetType × List Asset) → List AssetTypeSummary → ℚ →
      Except PyErr (List AssetTypeSummary × ℚ)
  | [], summaries, total => .ok (summaries, total)
  | g :: rest, summaries, total =>
    match analyze_asset_type_profit_loss conv g.1 g.2 with
    | .error e => .error e
    | .ok summary =>
      analyzeTypeLoop conv rest (summaries ++ [summary])
        (total + summary.total_profit_loss_rmb)

/-- `AssetManagementService.analyze_profit_loss`: load the portfolio (a
repository failure propagates), group by asset type, analyze each group,
and assemble the stamped report. -/
def analyze_profit_loss (load_portfolio : Except PyErr Portfolio)
    (conv : ExchangeBehavior) (now : ℕ) : Except PyErr ProfitLossReport :=
  match load_portfolio with
  | .error e => .error e
  | .ok portfolio =>
    match analyzeTypeLoop conv portfolio.group_by_asset_type [] 0 with
    | .error e => .error e
    | .ok res => .ok ⟨now, res.1, res.2⟩

/-! ### Next-month template generation -/

/-- One serialized asset record of the template: `{name, money_code,
current_account_balance, last_month_account_balance}`.  The balances cross
the boundary through `float(...)`; the values involved are exact decimals,
modelled exactly. -/
structure AssetRecord where
  name : String
  money_code : String
  current_account_balance : ℚ
  last_month_account_balance : ℚ
deriving DecidableEq, Repr

/-- The serialized template structure: one list of records per asset-type
code (a Python dict in insertion order). -/
abbrev TemplateData : Type := List (String × List AssetRecord)

/-- The serializable structure `generate_next_month_template` builds from a
(rolled-forward) portfolio: group by asset type, then one record per asset
keyed by the type's `en_name`. -/
def serialize_portfolio_data (p : Portfolio) : TemplateData :=
  p.group_by_asset_type.map
    (fun g =>
      (g.1.en_name,
        g.2.map (fun a =>
          ⟨a.name, a.currency.value, a.current_balance, a.previous_balance⟩)))

/-- The repository as the service sees it: the behaviour of
`load_portfolio` and of `save_next_month_portfolio` (the latter as a
function of the data argument the service passes). -/
structure RepoModel where
  load_portfolio : Except PyErr Portfolio
  save_next_month_portfolio : TemplateData → Except PyErr Unit

/-- `AssetManagementService.generate_next_month_template`.  The service
first calls `save_next_month_portfolio({})` — the literal empty dict —
then loads the portfolio, rolls it forward, and serializes it for the
caller's statistics.  The surrounding `try/except` logs and re-raises, so
every failure propagates.  The first component of the result records the
argument the service passed to the save call; the second is the returned
structure. -/
def generate_next_month_template (repo : RepoModel) :
    Except PyErr (TemplateData × TemplateData) :=
  match repo.save_next_month_portfolio [] with
  | .error e => .error e
  | .ok _ =>
    match repo.load_portfolio with
    | .error e => .error e
    | .ok portfolio =>
      match portfolio.prepare_next_month_portfolio with
      | .error e => .error e
      | .ok next_month_portfolio =>
        .ok ([], serialize_portfolio_data next_month_portfolio)

/-! ## Application use cases
(`application/use_cases/analyze_portfolio_use_case.py`,
`application/use_cases/generate_template_use_case.py`)

Both `execute` methods wrap their whole body in `try/except Exception` and
on an exception return `{'success': False, 'error': str(e), ...}`.  The
collaborating services and formatters are parameters of the embedding (the
type of the formatted/exported payloads too), so the theorems quantify
over every behaviour of the underlying services. -/

/-- The result dict of `AnalyzePortfolioUseCase.execute`: `success`,
`portfolio_summary`, optionally `report_text` / `report_data`, and
`error` on failure. -/
structure AnalyzeExecResult (σ ρ : Type) where
  success : Bool
  portfolio_summary : Option σ
  report_text : Option String
  report_data : Option ρ
  error : Option String
deriving DecidableEq, Repr

/-- The failure record `{'success': False, 'error': str(e),
'portfolio_summary': None}` of the analyze use case. -/
def analyzeFailure (σ ρ : Type) (e : PyErr) : AnalyzeExecResult σ ρ :=
  ⟨false, none, none, none, some e.message⟩

/-- `AnalyzePortfolioUseCase.execute`: run the profit/loss analysis, fetch
the portfolio summary, attach the formatted report according to
`output_format`, then call `self.__log_analysis_summary(...)` — an
attribute that does not exist (the method is defined as
`log_analysis_summary`, so the name-mangled lookup fails), raising
`AttributeError`, which the surrounding `except` turns into a failure
record.  Any earlier exception is caught the same way. -/
def analyzeExecute (σ ρ : Type)
    (analyze : Except PyErr ProfitLossReport)
    (get_portfolio_summary : Except PyErr σ)
    (format_report : ProfitLossReport → Except PyErr String)
    (export_report : ProfitLossReport → Except PyErr ρ)
    (output_format : String) : AnalyzeExecResult σ ρ :=
  match analyze with
  | .error e => analyzeFailure σ ρ e
  | .ok report =>
    match get_portfolio_summary with
    | .error e => analyzeFailure σ ρ e
    | .ok _summary =>
      match
        (if output_format = "text" ∨ output_format = "both" then
          (format_report report).map some
        else .ok none) with
      | .error e => analyzeFailure σ ρ e
      | .ok _report_text =>
        match
          (if output_format = "dict" ∨ output_format = "both" then
            (export_report report).map some
          else .ok none) with
        | .error e => analyzeFailure σ ρ e
        | .ok _report_data =>
          analyzeFailure σ ρ
            (.attributeError
              "AnalyzePortfolioUseCase object has no attribute _AnalyzePortfolioUseCase__log_analysis_summary")

/-- The statistics dict `_calculate_template_stats` builds. -/
structure TemplateStats where
  total_assets : ℕ
  asset_types_count : ℕ
  asset_type_breakdown : List (String × ℕ)
deriving DecidableEq, Repr

/-- `GenerateTemplateUseCase._calculate_template_stats`. -/
def calculate_template_stats (template_data : TemplateData) : TemplateStats :=
  ⟨(template_data.map (fun g => g.2.length)).sum,
    template_data.length,
    template_data.map (fun g => (g.1, g.2.length))⟩

/-- The result dict of `GenerateTemplateUseCase.execute`. -/
structure TemplateExecResult where
  success : Bool
  template_data : Option TemplateData
  statistics : Option TemplateStats
  error : Option String
deriving DecidableEq, Repr

/-- `GenerateTemplateUseCase.execute`: generate the template data, compute
its statistics, and return the success record; any exception from the
service is caught and turned into `{'success': False, 'error': str(e),
'template_data': None, 'statistics': None}`. -/
def templateExecute (generate : Except PyErr TemplateData) : TemplateExecResult :=
  match generate with
  | .error e => ⟨false, none, none, some e.message⟩
  | .ok next_month_data =>
    ⟨true, some next_month_data, some (calculate_template_stats next_month_data), none⟩

/-! ## Concrete inputs used by closed theorems -/

/-- A one-asset portfolio repository whose next-month save succeeds:
load yields the single stock asset `X` (CNY, current 10, previous 5). -/
def repoC3 : RepoModel :=
  ⟨.ok ⟨[⟨"X", AssetType.STOCK, MoneyCode.CNY, 10, 5⟩]⟩, fun _ => .ok ()⟩

/-- A repository whose next-month save always raises `RepositoryError`. -/
def repoC3fail : RepoModel :=
  ⟨.ok ⟨[]⟩, fun _ => .error (.repositoryError "Failed to save next month portfolio data")⟩

/-- A concrete valid bank-deposit asset. -/
def assetW : Asset :=
  ⟨"Cash", AssetType.BANK_DEPOSIT, MoneyCode.CNY, 7, 3⟩

/-!
# Theorems

Helper lemmas first, then one theorem per claim (and a witness or
counterexample where one is called for).
-/

/-- A list's deduplication has the list's length exactly when the list has
no duplicate: the comparison `len(names) != len(set(names))` in
`Portfolio._validate_assets` detects duplicates. -/
theorem dedup_length_eq_iff (l : List String) : l.dedup.length = l.length ↔ l.Nodup := by
  constructor
  · intro h
    have hsub : l.dedup.Sublist l := List.dedup_sublist l
    have heq : l.dedup = l := hsub.eq_of_length h
    rw [← heq]
    exact List.nodup_dedup l
  · intro h
    rw [List.dedup_eq_self.mpr h]

/-- The profit/loss analysis never fails (nor changes) because of the
exchange service: its result is the same under every conversion behaviour.
(An empty group never calls the service; a non-empty group aborts at the
`ProfitLossInfo` construction before the converted value is consumed.) -/
theorem analyze_profit_loss_conv_independent (load : Except PyErr Portfolio)
    (conv conv2 : ExchangeBehavior) (now : ℕ) :
    analyze_profit_loss load conv now = analyze_profit_loss load conv2 now := by
  have hgrp : ∀ (gs : List (AssetType × List Asset)) (acc : List AssetTypeSummary) (t : ℚ),
      analyzeTypeLoop conv gs acc t = analyzeTypeLoop conv2 gs acc t := by
    intro gs
    induction gs with
    | nil => intro acc t; rfl
    | cons g rest ih =>
      intro acc t
      have hsame : analyze_asset_type_profit_loss conv g.1 g.2
          = analyze_asset_type_profit_loss conv2 g.1 g.2 := by
        cases hgl : g.2 with
        | nil => simp [analyze_asset_type_profit_loss]
        | cons a rest2 => simp [analyze_asset_type_profit_loss, analyzeAssetLoop]
      simp only [analyzeTypeLoop, hsame]
      cases analyze_asset_type_profit_loss conv2 g.1 g.2 with
      | error e => rfl
      | ok s => exact ih _ _
  cases load with
  | error e => rfl
  | ok p => simp only [analyze_profit_loss, hgrp]

/-- C1: the claim says `analyzeProfitLoss` builds, for each asset of a
non-empty portfolio, a `ProfitLossInfo` carrying all five fields (in
particular `current_month_balance` equal to the asset's current balance).
The code cannot: the `ProfitLossInfo(...)` call in
`_analyze_asset_type_profit_loss` omits the required dataclass field
`current_month_balance`, so analysing the one-asset portfolio
`{name "X", stock, CNY, current 10, previous 5}` raises `TypeError`
instead of producing any snapshot. -/
theorem c1_analyze_raises_typeerror_on_nonempty_portfolio :
    analyze_profit_loss (.ok ⟨[⟨"X", AssetType.STOCK, MoneyCode.CNY, 10, 5⟩]⟩)
      (fun _ _ amount => .ok amount) 0
      = .error profitLossInfoMissingFieldError := by
  simp [analyze_profit_loss, Portfolio.group_by_asset_type, groupByAssetType,
    analyzeTypeLoop, analyze_asset_type_profit_loss, analyzeAssetLoop]

/-- C2: the claim says two same-type assets whose converted profit/loss is
exactly 0.005 each give an `AssetTypeSummary` total of 0.02.  On the code:
(i) `convert` rounds `0.05 USD * 0.1 = 0.005` half-to-even to `0.00`
(Python `round` on `Decimal`), not `0.01`; and (ii)
`_analyze_asset_type_profit_loss` on the two fund assets raises
`TypeError` at the `ProfitLossInfo` construction, so no summary (hence no
total) is produced at all. -/
theorem c2_no_summary_total_and_half_even_rounding :
    convert [((MoneyCode.USD, MoneyCode.CNY), 1/10)] .USD .CNY (1/20) = .ok 0 ∧
    analyze_asset_type_profit_loss
      (convert [((MoneyCode.USD, MoneyCode.CNY), 1/10)])
      AssetType.FUND
      [⟨"F1", AssetType.FUND, MoneyCode.USD, 201/20, 10⟩,
       ⟨"F2", AssetType.FUND, MoneyCode.USD, 201/20, 10⟩]
      = .error profitLossInfoMissingFieldError := by
  constructor
  · simp +decide only [convert, is_supported_currency_pair, get_exchange_rate, rateLookup,
      List.find?]
    norm_num [pyRound2, roundHalfEvenInt, ratFloor]
  · simp [analyze_asset_type_profit_loss, analyzeAssetLoop]

/-- C3 counterexample: the claim says the service invokes the repository's
next-month write with the same serialized structure it returns.  On the
one-asset repository `repoC3` the service passes the empty mapping to the
write (first component) yet returns the non-empty rolled-forward
structure (second component), and the two differ. -/
theorem c3_counterexample_saved_arg_differs_from_returned :
    generate_next_month_template repoC3
      = .ok ([], [("stock", [⟨"X", "CNY", 0, 10⟩])]) ∧
    ([] : TemplateData) ≠ [("stock", [⟨"X", "CNY", 0, 10⟩])] := by
  constructor
  · simp +decide [generate_next_month_template, repoC3, Portfolio.prepare_next_month_portfolio,
      List.mapM.loop, Asset.prepare_for_next_month, Asset.is_credit_card, Asset.init,
      assetInitError, pyIsBlank, Portfolio.init, serialize_portfolio_data,
      Portfolio.group_by_asset_type, groupByAssetType, AssetType.en_name, MoneyCode.value]
  · simp

/-- C3 as amended: `generate_next_month_template` invokes the repository's
next-month write with the empty mapping, not with the structure it
returns; a failure raised by the persistence call propagates unchanged to
the caller; and on the success path the returned structure is the
rolled-forward portfolio serialized as one record list per asset-type
code. -/
theorem c3_write_gets_empty_arg_and_errors_propagate (repo : RepoModel) :
    (∀ e, repo.save_next_month_portfolio [] = .error e →
      generate_next_month_template repo = .error e) ∧
    (∀ saved returned, generate_next_month_template repo = .ok (saved, returned) →
      saved = []) ∧
    (∀ p np, repo.save_next_month_portfolio [] = .ok () →
      repo.load_portfolio = .ok p → p.prepare_next_month_portfolio = .ok np →
      generate_next_month_template repo = .ok ([], serialize_portfolio_data np)) := by
  refine ⟨?_, ?_, ?_⟩
  · intro e he
    simp [generate_next_month_template, he]
  · intro saved returned h
    unfold generate_next_month_template at h
    split at h
    · cases h
    · split at h
      · cases h
      · split at h
        · cases h
        · cases h
          rfl
  · intro p np hs hl hp
    simp [generate_next_month_template, hs, hl, hp]

/-- C3 witness: the amended theorem applied at two concrete repositories: a
failing save propagates its `RepositoryError`, and the one-asset
repository returns the empty saved argument with the serialized
rolled-forward portfolio. -/
theorem c3_write_gets_empty_arg_and_errors_propagate_witness :
    generate_next_month_template repoC3fail
      = .error (.repositoryError "Failed to save next month portfolio data") ∧
    generate_next_month_template repoC3
      = .ok ([], serialize_portfolio_data
          ⟨[⟨"X", AssetType.STOCK, MoneyCode.CNY, 0, 10⟩]⟩) := by
  constructor
  · exact (c3_write_gets_empty_arg_and_errors_propagate repoC3fail).1 _ rfl
  · refine (c3_write_gets_empty_arg_and_errors_propagate repoC3).2.2
      ⟨[⟨"X", AssetType.STOCK, MoneyCode.CNY, 10, 5⟩]⟩
      ⟨[⟨"X", AssetType.STOCK, MoneyCode.CNY, 0, 10⟩]⟩ rfl rfl ?_
    simp +decide [Portfolio.prepare_next_month_portfolio, List.mapM.loop,
      Asset.prepare_for_next_month, Asset.is_credit_card, Asset.init, assetInitError,
      pyIsBlank, Portfolio.init]

/-- C4: during analysis, `_convert_to_rmb_if_needed` returns the amount
unchanged (consulting nothing) when the currency already is CNY; for any
other currency it returns the service's converted value when the call
succeeds and falls back to the unconverted amount when the call raises any
error.  And no conversion failure ever aborts (or even affects) the whole
report: `analyze_profit_loss` yields the same result under every
conversion behaviour. -/
theorem c4_conversion_soft_fail (conv conv2 : ExchangeBehavior) (amount v : ℚ)
    (currency : MoneyCode) (load : Except PyErr Portfolio) (now : ℕ) :
    (convert_to_rmb_if_needed conv amount currency = v ↔
      (currency = MoneyCode.CNY ∧ v = amount) ∨
      (currency ≠ MoneyCode.CNY ∧ conv currency MoneyCode.CNY amount = .ok v) ∨
      (currency ≠ MoneyCode.CNY ∧ (∃ e, conv currency MoneyCode.CNY amount = .error e) ∧
        v = amount)) ∧
    analyze_profit_loss load conv now = analyze_profit_loss load conv2 now := by
  refine ⟨?_, analyze_profit_loss_conv_independent load conv conv2 now⟩
  by_cases hc : currency = MoneyCode.CNY
  · subst hc; simp [convert_to_rmb_if_needed, eq_comm]
  · cases hcv : conv currency MoneyCode.CNY amount with
    | ok w => simp [convert_to_rmb_if_needed, hc, hcv, eq_comm]
    | error e => simp [convert_to_rmb_if_needed, hc, hcv, eq_comm]

/-- C5: for every valid asset, `prepare_for_next_month` returns an
identical copy when the asset is a credit card, and otherwise a new asset
with the previous balance set to the old current balance, the current
balance zeroed, and name, type and currency unchanged. -/
theorem c5_prepare_for_next_month_spec (a : Asset) (h : a.Valid) :
    a.prepare_for_next_month = .ok
      (if a.asset_type = AssetType.CREDIT_CARD then a
       else { a with current_balance := 0, previous_balance := a.current_balance }) := by
  have hval := h
  unfold Asset.Valid assetInitError at hval
  split_ifs at hval with h1 h2 h3
  by_cases hcc : a.asset_type = AssetType.CREDIT_CARD
  · simp [Asset.prepare_for_next_month, Asset.is_credit_card, hcc, Asset.init,
      assetInitError, h1, h2, h3]
    rw [← hcc]
  · simp [Asset.prepare_for_next_month, Asset.is_credit_card, hcc, Asset.init,
      assetInitError, h1, h2]

/-- C5 witness: the theorem applied to the concrete valid bank-deposit
asset `assetW` (current 7, previous 3). -/
theorem c5_prepare_for_next_month_spec_witness :
    assetW.Valid ∧
    assetW.prepare_for_next_month = .ok
      (if assetW.asset_type = AssetType.CREDIT_CARD then assetW
       else { assetW with current_balance := 0, previous_balance := assetW.current_balance }) :=
  ⟨by decide, c5_prepare_for_next_month_spec assetW (by decide)⟩

/-- C6: for any rate table, `convert` fails with the unsupported-pair error
precisely when the currencies differ and the ordered pair `(from, to)` has
no entry — whatever is stored for the reverse pair; for identical
currencies `convert` returns the amount unchanged and
`is_supported_currency_pair` is true. -/
theorem c6_unsupported_pair_iff_no_ordered_entry (table : RateTable)
    (fr fin : MoneyCode) (amount : ℚ) :
    (convert table fr fin amount = .error (.exchangeUnsupportedPair fr fin)
      ↔ fr ≠ fin ∧ rateLookup table fr fin = none) ∧
    convert table fr fr amount = .ok amount ∧
    is_supported_currency_pair table fr fr = true := by
  refine ⟨?_, by simp [convert], by simp [is_supported_currency_pair]⟩
  by_cases hft : fr = fin
  · subst hft; simp [convert]
  · cases hlk : rateLookup table fr fin with
    | none => simp [convert, is_supported_currency_pair, hft, hlk]
    | some r =>
      by_cases hr : r ≤ 0 <;>
        simp [convert, is_supported_currency_pair, hft, hlk, get_exchange_rate, hr]

/-- C7: constructing a `Portfolio` fails with the duplicate-name error
exactly when the (case-sensitively compared) asset names repeat, succeeds
with exactly the supplied assets when the names are pairwise distinct, and
the resulting portfolio's `size` is the number of assets supplied. -/
theorem c7_portfolio_init_duplicate_names (assets : List Asset) :
    (Portfolio.init assets = .error (.valueError "Portfolio contains duplicate asset names")
      ↔ ¬ (assets.map Asset.name).Nodup) ∧
    (Portfolio.init assets = .ok ⟨assets⟩ ↔ (assets.map Asset.name).Nodup) ∧
    Portfolio.size ⟨assets⟩ = assets.length := by
  refine ⟨?_, ?_, rfl⟩ <;>
  · by_cases hn : (assets.map Asset.name).Nodup
    · have hpos : (assets.map Asset.name).dedup.length = assets.length := by
        rw [(dedup_length_eq_iff _).mpr hn, List.length_map]
      simp [Portfolio.init, hpos, hn]
    · have hne : (assets.map Asset.name).dedup.length ≠ assets.length := by
        intro hl
        exact hn ((dedup_length_eq_iff _).mp (by rw [List.length_map]; exact hl))
      simp [Portfolio.init, hne, hn]

/-- C8: for every behaviour of the underlying services (any results, any
raised exceptions), both use-case `execute` methods return a result record
— they are total functions of the collaborator behaviours — that either
has `success = true` (for the template use case: with the generated data
and its statistics) or has `success = false` together with an error
message. -/
theorem c8_use_cases_never_raise {σ ρ : Type} (analyze : Except PyErr ProfitLossReport)
    (get_summary : Except PyErr σ)
    (format_report : ProfitLossReport → Except PyErr String)
    (export_report : ProfitLossReport → Except PyErr ρ)
    (output_format : String)
    (generate : Except PyErr TemplateData) :
    (((analyzeExecute σ ρ analyze get_summary format_report export_report
          output_format).success = true) ∨
      ((analyzeExecute σ ρ analyze get_summary format_report export_report
          output_format).success = false ∧
        (analyzeExecute σ ρ analyze get_summary format_report export_report
          output_format).error.isSome = true)) ∧
    ((∃ d, generate = .ok d ∧
        templateExecute generate
          = ⟨true, some d, some (calculate_template_stats d), none⟩) ∨
      (∃ e, generate = .error e ∧
        templateExecute generate = ⟨false, none, none, some e.message⟩)) := by
  constructor
  · refine Or.inr ?_
    unfold analyzeExecute
    repeat' split
    all_goals simp [analyzeFailure]
  · cases generate with
    | ok d => exact Or.inl ⟨d, rfl, rfl⟩
    | error e => exact Or.inr ⟨e, rfl, rfl⟩

/-- C9: analysing a loaded empty portfolio succeeds — under every
conversion behaviour — with no asset-type summaries and a total
profit/loss of exactly 0, a report that reports neither profit nor loss. -/
theorem c9_empty_portfolio_break_even (conv : ExchangeBehavior) (now : ℕ) :
    analyze_profit_loss (.ok ⟨[]⟩) conv now = .ok ⟨now, [], 0⟩ ∧
    ProfitLossReport.has_profit ⟨now, [], 0⟩ = false ∧
    ProfitLossReport.has_loss ⟨now, [], 0⟩ = false := by
  refine ⟨?_, by simp [ProfitLossReport.has_profit], by simp [ProfitLossReport.has_loss]⟩
  simp [analyze_profit_loss, Portfolio.group_by_asset_type, groupByAssetType, analyzeTypeLoop]

/-- C10: `get_exchange_rate` returns a value exactly when either the
currencies are identical (and the value is 1) or the ordered pair is
stored with a strictly positive rate (and the value is that rate) — so no
caller ever observes a non-positive rate; and it raises the invalid-rate
error exactly when the currencies differ and the stored rate is ≤ 0. -/
theorem c10_get_exchange_rate_positive (table : RateTable) (fr fin : MoneyCode) (r : ℚ) :
    (get_exchange_rate table fr fin = .ok r
      ↔ (fr = fin ∧ r = 1) ∨ (fr ≠ fin ∧ rateLookup table fr fin = some r ∧ 0 < r)) ∧
    ((∃ s, get_exchange_rate table fr fin = .error (.exchangeInvalidRate s fr fin))
      ↔ fr ≠ fin ∧ ∃ s, rateLookup table fr fin = some s ∧ s ≤ 0) := by
  by_cases hft : fr = fin
  · subst hft
    constructor
    · simp [get_exchange_rate, eq_comm]
    · simp [get_exchange_rate]
  · cases hlk : rateLookup table fr fin with
    | none =>
      constructor <;> simp [get_exchange_rate, hft, hlk]
    | some s =>
      by_cases hs : s ≤ 0
      · constructor
        · simp [get_exchange_rate, hft, hlk, hs]
          rintro rfl
          exact hs
        · simp [get_exchange_rate, hft, hlk, hs]
      · constructor
        · simp [get_exchange_rate, hft, hlk, hs, eq_comm]
          rintro rfl
          exact lt_of_not_le hs
        · simp [get_exchange_rate, hft, hlk, hs]

end SFI
